import Mathlib

/-!
Verification of the 2d-room-planner geometry and interaction engine.

The TypeScript source (src/components/CanvasView.tsx and the App store) is
shallowly embedded over the rational numbers.  JavaScript numeric primitives
that are not rational-valued (Math.sqrt, Math.cos, Math.sin, Math.atan2,
Math.PI) are abstracted into a `JsMath` record of rational functions that the
embedded code threads through every computation, exactly where the source
calls the corresponding Math function.  Theorems that do not depend on the
numeric value of those functions are proved for every `JsMath`; concrete
evaluations use `jsMathApprox`, which is exact at the arguments the concrete
inputs produce (square roots of perfect squares, trigonometry at 0).
-/

/-- Abstraction of the JavaScript Math functions used by CanvasView. -/
structure JsMath where
  sqrt : ℚ → ℚ
  cos : ℚ → ℚ
  sin : ℚ → ℚ
  atan2 : ℚ → ℚ → ℚ
  pi : ℚ

/-- Rational square root, exact when numerator and denominator are perfect
squares (all concrete inputs in this development are). -/
def ratSqrt (q : ℚ) : ℚ :=
  (Nat.sqrt q.num.toNat : ℚ) / (Nat.sqrt q.den : ℚ)

/-- Rational stand-in for Math.PI (the IEEE double value of π). -/
def jsPi : ℚ := 3141592653589793 / 1000000000000000

/-- Rational stand-in for Math.cos, exact at 0 and a double-precision
approximation at π/6 (the only arguments concrete inputs reach). -/
def jsCos (q : ℚ) : ℚ :=
  if q = 0 then 1
  else if q = jsPi / 6 then 8660254037844387 / 10000000000000000
  else 0

/-- Rational stand-in for Math.sin, exact at 0 and at π/6. -/
def jsSin (q : ℚ) : ℚ :=
  if q = 0 then 0
  else if q = jsPi / 6 then 1 / 2
  else 0

/-- Rational stand-in for Math.atan2, exact on the axes (the only arguments
concrete inputs reach). -/
def jsAtan2 (y x : ℚ) : ℚ :=
  if y = 0 then (if 0 ≤ x then 0 else jsPi)
  else if x = 0 then (if 0 < y then jsPi / 2 else -(jsPi / 2))
  else 0

/-- The concrete `JsMath` used to evaluate the embedding on concrete inputs. -/
def jsMathApprox : JsMath where
  sqrt := ratSqrt
  cos := jsCos
  sin := jsSin
  atan2 := jsAtan2
  pi := jsPi

/-- A 2D point (world or screen coordinates). -/
structure Pt where
  x : ℚ
  y : ℚ


/-- ViewTransform from types.ts: scale plus pixel offset. -/
structure ViewTransform where
  scale : ℚ
  offsetX : ℚ
  offsetY : ℚ


/-- screenToCanvas from CanvasView.tsx (canvas-relative screen coordinates to
world coordinates): subtract the offset, divide by the scale. -/
def screenToCanvas (t : ViewTransform) (screenX screenY : ℚ) : Pt :=
  { x := (screenX - t.offsetX) / t.scale
    y := (screenY - t.offsetY) / t.scale }

/-- handleWheel from CanvasView.tsx: `deltaPos` is `e.deltaY > 0`.  The new
scale is the old scale times 0.9 or 1.1, clamped to [0.1, 5]; the offset is
recomputed so the world point under the cursor stays fixed. -/
def handleWheel (deltaPos : Bool) (mouseX mouseY : ℚ) (t : ViewTransform) :
    ViewTransform :=
  let delta : ℚ := if deltaPos then 9 / 10 else 11 / 10
  let newScale : ℚ := max (1 / 10) (min 5 (t.scale * delta))
  { scale := newScale
    offsetX := mouseX - (mouseX - t.offsetX) * (newScale / t.scale)
    offsetY := mouseY - (mouseY - t.offsetY) * (newScale / t.scale) }

theorem handleWheel_scale_pos (deltaPos : Bool) (mouseX mouseY : ℚ)
    (t : ViewTransform) : 0 < (handleWheel deltaPos mouseX mouseY t).scale := by
  have h : (1 : ℚ) / 10 ≤ max (1 / 10) (min 5 (t.scale * if deltaPos then 9 / 10 else 11 / 10)) :=
    le_max_left _ _
  calc (0 : ℚ) < 1 / 10 := by norm_num
    _ ≤ _ := h

theorem zoom_offset_formula (s s2 off m : ℚ) (hs : s ≠ 0) (hs2 : s2 ≠ 0) :
    (m - (m - (m - off) * (s2 / s))) / s2 = (m - off) / s := by
  field_simp
  ring

/-- C1: for every cursor position and every view transform with scale in
[0.1, 5.0], one wheel-zoom step leaves the world point under the cursor
unchanged: screenToCanvas at the cursor agrees before and after the zoom. -/
theorem wheel_zoom_anchor_invariant (deltaPos : Bool) (mouseX mouseY : ℚ)
    (t : ViewTransform) (hlo : 1 / 10 ≤ t.scale) (hhi : t.scale ≤ 5) :
    screenToCanvas (handleWheel deltaPos mouseX mouseY t) mouseX mouseY =
      screenToCanvas t mouseX mouseY := by
  have hs : t.scale ≠ 0 := by positivity
  have hns : (handleWheel deltaPos mouseX mouseY t).scale ≠ 0 :=
    ne_of_gt (handleWheel_scale_pos deltaPos mouseX mouseY t)
  have hox : (handleWheel deltaPos mouseX mouseY t).offsetX =
      mouseX - (mouseX - t.offsetX) *
        ((handleWheel deltaPos mouseX mouseY t).scale / t.scale) := rfl
  have hoy : (handleWheel deltaPos mouseX mouseY t).offsetY =
      mouseY - (mouseY - t.offsetY) *
        ((handleWheel deltaPos mouseX mouseY t).scale / t.scale) := rfl
  simp only [screenToCanvas]
  rw [Pt.mk.injEq]
  refine ⟨?_, ?_⟩
  · rw [hox]
    exact zoom_offset_formula t.scale _ t.offsetX mouseX hs hns
  · rw [hoy]
    exact zoom_offset_formula t.scale _ t.offsetY mouseY hs hns

/-- Witness for C1 at a concrete transform and cursor. -/
theorem wheel_zoom_anchor_invariant_witness :
    screenToCanvas (handleWheel true 320 240 ⟨1, 30, 40⟩) 320 240 =
      screenToCanvas ⟨1, 30, 40⟩ 320 240 :=
  wheel_zoom_anchor_invariant true 320 240 ⟨1, 30, 40⟩ (by norm_num) (by norm_num)

/-- Rectangle-side names used by door attachments (types.ts). -/
inductive Side where
  | top
  | bottom
  | left
  | right


/-- Kind-specific payload of a CanvasElement (types.ts).  The text `content`
is kept as a string whose length enters the width heuristic. -/
inductive ElementKind where
  | line (endX endY lengthCm : ℚ)
  | rectangle (width height widthCm heightCm : ℚ)
  | text (content : String) (fontSize : ℚ) (fontFamily : String)
  | door (width : ℚ) (attachedToLine : Option String)
      (attachedToRectangle : Option String) (attachmentSide : Option Side)
  | circle (radius radiusCm : ℚ)


/-- A CanvasElement (types.ts).  Optional `rotation` is collapsed to 0 (the
source always reads it as `rotation || 0` or passes it through unchanged);
optional `locked` and `hideDimensions` are collapsed to false (truthiness
checks). -/
structure Element where
  id : String
  x : ℚ
  y : ℚ
  color : String
  fillColor : String
  opacity : Option ℚ
  strokeWidth : ℚ
  hideDimensions : Bool
  rotation : ℚ
  text : Option String
  locked : Bool
  kind : ElementKind


/-- pointToLineDistance from CanvasView.tsx: distance from (px,py) to the
segment (x1,y1)-(x2,y2) via the clamped projection parameter. -/
def pointToLineDistance (m : JsMath) (px py x1 y1 x2 y2 : ℚ) : ℚ :=
  let a := px - x1
  let b := py - y1
  let c := x2 - x1
  let d := y2 - y1
  let dot := a * c + b * d
  let lenSq := c * c + d * d
  let param : ℚ := if lenSq = 0 then -1 else dot / lenSq
  let xx := if param < 0 then x1 else if 1 < param then x2 else x1 + param * c
  let yy := if param < 0 then y1 else if 1 < param then y2 else y1 + param * d
  m.sqrt ((px - xx) * (px - xx) + (py - yy) * (py - yy))

/-- getClosestPointOnLine from findNearestLineOrWall: the clamped closest
point on the segment. -/
def getClosestPointOnLine (px py x1 y1 x2 y2 : ℚ) : Pt :=
  let a := px - x1
  let b := py - y1
  let c := x2 - x1
  let d := y2 - y1
  let dot := a * c + b * d
  let lenSq := c * c + d * d
  let param : ℚ := if lenSq = 0 then -1 else dot / lenSq
  { x := if param < 0 then x1 else if 1 < param then x2 else x1 + param * c
    y := if param < 0 then y1 else if 1 < param then y2 else y1 + param * d }

/-- Result record of findNearestLineOrWall.  `distance = ⊤` models the
JavaScript Infinity of the unsnapped result. -/
structure SnapResult where
  x : ℚ
  y : ℚ
  rotation : ℚ
  distance : WithTop ℚ
  attachedToLine : Option String
  attachedToRectangle : Option String
  attachmentSide : Option Side


/-- One candidate side of a rectangle inside findNearestLineOrWall. -/
def snapSide (m : JsMath) (snapDist : ℚ) (p : Pt) (rectId : String)
    (s : ℚ × ℚ × ℚ × ℚ × Side) (acc : WithTop ℚ × SnapResult) :
    WithTop ℚ × SnapResult :=
  match s with
  | (x1, y1, x2, y2, side) =>
    let dist := pointToLineDistance m p.x p.y x1 y1 x2 y2
    if dist < snapDist ∧ (dist : WithTop ℚ) < acc.1 then
      ((dist : WithTop ℚ),
        { x := (getClosestPointOnLine p.x p.y x1 y1 x2 y2).x
          y := (getClosestPointOnLine p.x p.y x1 y1 x2 y2).y
          rotation := m.atan2 (y2 - y1) (x2 - x1)
          distance := (dist : WithTop ℚ)
          attachedToLine := none
          attachedToRectangle := some rectId
          attachmentSide := some side })
    else acc

/-- One element of the findNearestLineOrWall scan: lines contribute their
segment, rectangles their four sides (top, bottom, left, right in source
order); other kinds are skipped. -/
def findNearestStep (m : JsMath) (snapDist : ℚ) (p : Pt)
    (acc : WithTop ℚ × SnapResult) (e : Element) : WithTop ℚ × SnapResult :=
  match e.kind with
  | .line eX eY _ =>
    let dist := pointToLineDistance m p.x p.y e.x e.y eX eY
    if dist < snapDist ∧ (dist : WithTop ℚ) < acc.1 then
      ((dist : WithTop ℚ),
        { x := (getClosestPointOnLine p.x p.y e.x e.y eX eY).x
          y := (getClosestPointOnLine p.x p.y e.x e.y eX eY).y
          rotation := m.atan2 (eY - e.y) (eX - e.x)
          distance := (dist : WithTop ℚ)
          attachedToLine := some e.id
          attachedToRectangle := none
          attachmentSide := none })
    else acc
  | .rectangle w h _ _ =>
    ([(e.x, e.y, e.x + w, e.y, Side.top),
      (e.x, e.y + h, e.x + w, e.y + h, Side.bottom),
      (e.x, e.y, e.x, e.y + h, Side.left),
      (e.x + w, e.y, e.x + w, e.y + h, Side.right)]).foldl
      (fun a s => snapSide m snapDist p e.id s a) acc
  | _ => acc

/-- findNearestLineOrWall from CanvasView.tsx: nearest attachable segment
within the 30/scale snap threshold, or the unsnapped input point with
rotation 0 and infinite distance. -/
def findNearestLineOrWall (m : JsMath) (scale : ℚ) (els : List Element)
    (p : Pt) : SnapResult :=
  let snapDist := 30 / scale
  (els.foldl (findNearestStep m snapDist p)
    (⊤, { x := p.x, y := p.y, rotation := 0, distance := ⊤,
          attachedToLine := none, attachedToRectangle := none,
          attachmentSide := none })).2

theorem natSqrt_eval (n a : ℕ) (h1 : a * a ≤ n) (h2 : n < (a + 1) * (a + 1)) :
    Nat.sqrt n = a := (Nat.eq_sqrt.mpr ⟨h1, h2⟩).symm

theorem ratSqrt_natLit (n a : ℕ) (hnum : ((n : ℚ).num).toNat = n)
    (hden : (n : ℚ).den = 1) (h : Nat.sqrt n = a) : ratSqrt (n : ℚ) = a := by
  unfold ratSqrt
  rw [hnum, hden, h, Nat.sqrt_one]
  norm_num

theorem ratSqrt_25 : ratSqrt 25 = 5 := by
  have := ratSqrt_natLit 25 5 rfl rfl (natSqrt_eval 25 5 (by norm_num) (by norm_num))
  norm_num at this
  exact this

theorem ratSqrt_400 : ratSqrt 400 = 20 := by
  have := ratSqrt_natLit 400 20 rfl rfl (natSqrt_eval 400 20 (by norm_num) (by norm_num))
  norm_num at this
  exact this

theorem ratSqrt_2500 : ratSqrt 2500 = 50 := by
  have := ratSqrt_natLit 2500 50 rfl rfl (natSqrt_eval 2500 50 (by norm_num) (by norm_num))
  norm_num at this
  exact this

/-- The Line from (0,0) to (100,0) used by the snap-clamp scenario. -/
def snapSampleLine : Element :=
  { id := "L1", x := 0, y := 0, color := "#000000", fillColor := "none",
    opacity := none, strokeWidth := 10, hideDimensions := false,
    rotation := 0, text := none, locked := false,
    kind := .line 100 0 10 }

/-- Closed form of findNearestLineOrWall over a single Line element: the
snapped closest point when the distance beats the 30/scale threshold, the
unsnapped input otherwise. -/
theorem findNearest_single_line (m : JsMath) (scale : ℚ) (e : Element)
    (x1 y1 eX eY lcm : ℚ) (hk : e.kind = .line eX eY lcm)
    (hx : e.x = x1) (hy : e.y = y1) (px py : ℚ) :
    findNearestLineOrWall m scale [e] { x := px, y := py } =
      if pointToLineDistance m px py x1 y1 eX eY < 30 / scale then
        { x := (getClosestPointOnLine px py x1 y1 eX eY).x
          y := (getClosestPointOnLine px py x1 y1 eX eY).y
          rotation := m.atan2 (eY - y1) (eX - x1)
          distance := (pointToLineDistance m px py x1 y1 eX eY : WithTop ℚ)
          attachedToLine := some e.id
          attachedToRectangle := none
          attachmentSide := none }
      else { x := px, y := py, rotation := 0, distance := ⊤,
             attachedToLine := none, attachedToRectangle := none,
             attachmentSide := none } := by
  subst hx
  subst hy
  by_cases h : pointToLineDistance m px py e.x e.y eX eY < 30 / scale
  · rw [if_pos h]
    simp only [findNearestLineOrWall, List.foldl, findNearestStep, hk]
    rw [if_pos ⟨h, WithTop.coe_lt_top _⟩]
  · rw [if_neg h]
    simp only [findNearestLineOrWall, List.foldl, findNearestStep, hk]
    rw [if_neg (fun hc => h hc.1)]

/-- C2 counterexample: with view scale 1 and the single Line (0,0)-(100,0),
the query (150,0) is 50 away from the segment, beyond the 30/scale snap
threshold, so findNearestLineOrWall returns the unsnapped input (150,0) with
infinite distance — not the clamped endpoint (100,0) the claim states. -/
theorem snap_clamp_beyond_end_counterexample :
    findNearestLineOrWall jsMathApprox 1 [snapSampleLine] { x := 150, y := 0 } =
      { x := 150, y := 0, rotation := 0, distance := ⊤,
        attachedToLine := none, attachedToRectangle := none,
        attachmentSide := none } ∧
    (findNearestLineOrWall jsMathApprox 1 [snapSampleLine]
        { x := 150, y := 0 }).x ≠ 100 := by
  have hd : pointToLineDistance jsMathApprox 150 0 0 0 100 0 = 50 := by
    unfold pointToLineDistance
    norm_num [jsMathApprox, ratSqrt_2500]
  have hres : findNearestLineOrWall jsMathApprox 1 [snapSampleLine]
      { x := 150, y := 0 } =
      { x := 150, y := 0, rotation := 0, distance := ⊤,
        attachedToLine := none, attachedToRectangle := none,
        attachmentSide := none } := by
    rw [findNearest_single_line jsMathApprox 1 snapSampleLine 0 0 100 0 10 rfl rfl rfl 150 0]
    rw [hd]
    rw [if_neg (by norm_num : ¬ ((50 : ℚ) < 30 / 1))]
  refine ⟨hres, ?_⟩
  rw [hres]
  norm_num

/-- C2 (amended): with view scale 1 and the single Line (0,0)-(100,0),
findNearestLineOrWall((50,5)) returns point (50,0), rotation 0, distance 5
attached to the line; findNearestLineOrWall((150,0)), beyond the segment end
at distance 50 > 30/scale, returns the unsnapped input (150,0) with rotation
0 and infinite distance; a beyond-the-end query within threshold,
findNearestLineOrWall((120,0)), clamps to the endpoint (100,0) with
distance 20. -/
theorem snap_clamp_scenario :
    findNearestLineOrWall jsMathApprox 1 [snapSampleLine] { x := 50, y := 5 } =
      { x := 50, y := 0, rotation := 0, distance := (5 : ℚ),
        attachedToLine := some "L1", attachedToRectangle := none,
        attachmentSide := none } ∧
    findNearestLineOrWall jsMathApprox 1 [snapSampleLine] { x := 150, y := 0 } =
      { x := 150, y := 0, rotation := 0, distance := ⊤,
        attachedToLine := none, attachedToRectangle := none,
        attachmentSide := none } ∧
    findNearestLineOrWall jsMathApprox 1 [snapSampleLine] { x := 120, y := 0 } =
      { x := 100, y := 0, rotation := 0, distance := (20 : ℚ),
        attachedToLine := some "L1", attachedToRectangle := none,
        attachmentSide := none } := by
  have hd1 : pointToLineDistance jsMathApprox 50 5 0 0 100 0 = 5 := by
    unfold pointToLineDistance
    norm_num [jsMathApprox, ratSqrt_25]
  have hc1 : getClosestPointOnLine 50 5 0 0 100 0 = { x := 50, y := 0 } := by
    unfold getClosestPointOnLine
    norm_num
  have hd2 : pointToLineDistance jsMathApprox 150 0 0 0 100 0 = 50 := by
    unfold pointToLineDistance
    norm_num [jsMathApprox, ratSqrt_2500]
  have hd3 : pointToLineDistance jsMathApprox 120 0 0 0 100 0 = 20 := by
    unfold pointToLineDistance
    norm_num [jsMathApprox, ratSqrt_400]
  have hc3 : getClosestPointOnLine 120 0 0 0 100 0 = { x := 100, y := 0 } := by
    unfold getClosestPointOnLine
    norm_num
  have hatan : jsMathApprox.atan2 0 100 = 0 := by
    show jsAtan2 0 100 = 0
    norm_num [jsAtan2]
  refine ⟨?_, ?_, ?_⟩
  · rw [findNearest_single_line jsMathApprox 1 snapSampleLine 0 0 100 0 10 rfl rfl rfl 50 5]
    rw [hd1, hc1]
    rw [if_pos (by norm_num : (5 : ℚ) < 30 / 1)]
    rw [show (100 : ℚ) - 0 = 100 by norm_num, show (0 : ℚ) - 0 = 0 by norm_num, hatan]
    rfl
  · rw [findNearest_single_line jsMathApprox 1 snapSampleLine 0 0 100 0 10 rfl rfl rfl 150 0]
    rw [hd2]
    rw [if_neg (by norm_num : ¬ ((50 : ℚ) < 30 / 1))]
  · rw [findNearest_single_line jsMathApprox 1 snapSampleLine 0 0 100 0 10 rfl rfl rfl 120 0]
    rw [hd3, hc3]
    rw [if_pos (by norm_num : (20 : ℚ) < 30 / 1)]
    rw [show (100 : ℚ) - 0 = 100 by norm_num, show (0 : ℚ) - 0 = 0 by norm_num, hatan]
    rfl

/-- Per-kind hit test from findElementAt (CanvasView.tsx): Line within
10/scale of the segment; Rectangle by inverse-rotated axis-aligned
containment about its center; Text by inverse-rotated containment of the
estimated glyph box; Door by a 5/scale band along the leaf plus a 5/scale
distance to the arc-end segment, in the door's local frame; Circle by
distance to center at most the radius. -/
def elementHit (m : JsMath) (scale : ℚ) (e : Element) (x y : ℚ) : Bool :=
  match e.kind with
  | .line eX eY _ =>
    decide (pointToLineDistance m x y e.x e.y eX eY < 10 / scale)
  | .rectangle w h _ _ =>
    let centerX := e.x + w / 2
    let centerY := e.y + h / 2
    let c := m.cos (-e.rotation)
    let s := m.sin (-e.rotation)
    let dx := x - centerX
    let dy := y - centerY
    let localX := dx * c - dy * s
    let localY := dx * s + dy * c
    decide (-(w / 2) ≤ localX ∧ localX ≤ w / 2 ∧
      -(h / 2) ≤ localY ∧ localY ≤ h / 2)
  | .text content fontSize _ =>
    let scaledFontSize := fontSize / scale
    let estimatedWidth := (content.length : ℚ) * scaledFontSize * (3 / 5)
    let c := m.cos (-e.rotation)
    let s := m.sin (-e.rotation)
    let dx := x - e.x
    let dy := y - e.y
    let localX := dx * c - dy * s
    let localY := dx * s + dy * c
    decide (0 ≤ localX ∧ localX ≤ estimatedWidth ∧
      -scaledFontSize ≤ localY ∧ localY ≤ 0)
  | .door w _ _ _ =>
    let c := m.cos e.rotation
    let s := m.sin e.rotation
    let dx := x - e.x
    let dy := y - e.y
    let localX := dx * c + dy * s
    let localY := -dx * s + dy * c
    let doorAngle := m.pi / 6
    let doorEndX := w * m.cos doorAngle
    let doorEndY := w * m.sin doorAngle
    let doorLineDist := pointToLineDistance m localX localY w 0 (w + doorEndX) doorEndY
    decide ((|localY| ≤ 5 / scale ∧ 0 ≤ localX ∧ localX ≤ w) ∨
      doorLineDist ≤ 5 / scale)
  | .circle r _ =>
    decide (m.sqrt ((x - e.x) * (x - e.x) + (y - e.y) * (y - e.y)) ≤ r)

/-- The reversed scan of findElementAt, carrying the first locked match met
so far. -/
def findElementAtAux (m : JsMath) (scale x y : ℚ) :
    List Element → Option Element → Option Element
  | [], lockedMatch => lockedMatch
  | e :: rest, lockedMatch =>
    if elementHit m scale e x y then
      if e.locked then
        findElementAtAux m scale x y rest (lockedMatch.orElse fun _ => some e)
      else some e
    else findElementAtAux m scale x y rest lockedMatch

/-- findElementAt from CanvasView.tsx: scan the element list topmost-first
(reverse render order); return the first unlocked hit, else the topmost
locked hit, else none. -/
def findElementAt (m : JsMath) (scale : ℚ) (els : List Element) (x y : ℚ) :
    Option Element :=
  findElementAtAux m scale x y els.reverse none

/-- The screen-space selection box tracked during box-selecting. -/
structure SelBox where
  x : ℚ
  y : ℚ
  width : ℚ
  height : ℚ


/-- isPointInBox from handleMouseUp: inclusive containment. -/
def isPointInBox (x y : ℚ) (b : SelBox) : Bool :=
  decide (b.x ≤ x ∧ x ≤ b.x + b.width ∧ b.y ≤ y ∧ y ≤ b.y + b.height)

/-- Rotation of one corner about a center, as in getRotatedCorners. -/
def rotatePointAround (m : JsMath) (px py cx cy rot : ℚ) : Pt :=
  { x := cx + (px - cx) * m.cos rot - (py - cy) * m.sin rot
    y := cy + (px - cx) * m.sin rot + (py - cy) * m.cos rot }

/-- getRotatedCorners from handleMouseUp: the four corners of an axis-aligned
box, each rotated about the given center. -/
def getRotatedCorners (m : JsMath) (x y w h rot cx cy : ℚ) : List Pt :=
  [rotatePointAround m x y cx cy rot,
   rotatePointAround m (x + w) y cx cy rot,
   rotatePointAround m x (y + h) cx cy rot,
   rotatePointAround m (x + w) (y + h) cx cy rot]

/-- The per-element inclusion test of the box-select commit in handleMouseUp
(the body of the elementsInBox filter). -/
def elementInBox (m : JsMath) (scale : ℚ) (box : SelBox) (e : Element) : Bool :=
  match e.kind with
  | .line eX eY _ =>
    isPointInBox e.x e.y box || isPointInBox eX eY box
  | .rectangle w h _ _ =>
    let cx := e.x + w / 2
    let cy := e.y + h / 2
    (getRotatedCorners m e.x e.y w h e.rotation cx cy).any
      (fun c => isPointInBox c.x c.y box)
  | .text content fontSize _ =>
    let sfs := fontSize / scale
    let ew := (content.length : ℚ) * sfs * (3 / 5)
    (getRotatedCorners m e.x (e.y - sfs) ew sfs e.rotation e.x e.y).any
      (fun c => isPointInBox c.x c.y box)
  | .circle r _ =>
    decide (e.x - r < box.x + box.width ∧ box.x < e.x + r ∧
      e.y - r < box.y + box.height ∧ box.y < e.y + r)
  | .door w _ _ _ =>
    isPointInBox e.x e.y box ||
      isPointInBox (e.x + w * m.cos e.rotation) (e.y + w * m.sin e.rotation) box

/-- The committed box selection of handleMouseUp: the elements passing
elementInBox, in list order. -/
def elementsInBox (m : JsMath) (scale : ℚ) (box : SelBox) (els : List Element) :
    List Element :=
  els.filter (elementInBox m scale box)

/-- The query point transformed into a door's unrotated local frame (the
inverse rotation applied in findElementAt's door branch). -/
def doorLocal (m : JsMath) (e : Element) (x y : ℚ) : Pt :=
  { x := (x - e.x) * m.cos e.rotation + (y - e.y) * m.sin e.rotation
    y := -(x - e.x) * m.sin e.rotation + (y - e.y) * m.cos e.rotation }

/-- Leaf-band hit: the local point lies along the leaf (0 ≤ localX ≤ width)
within 5/scale of it perpendicular. -/
def doorLeafBandHit (scale w localX localY : ℚ) : Prop :=
  |localY| ≤ 5 / scale ∧ 0 ≤ localX ∧ localX ≤ w

/-- Arc-end-segment hit: the local point is within 5/scale of the segment
from (width, 0) to (width + width·cos(π/6), width·sin(π/6)). -/
def doorArcSegmentHit (m : JsMath) (scale w localX localY : ℚ) : Prop :=
  pointToLineDistance m localX localY w 0
    (w + w * m.cos (m.pi / 6)) (w * m.sin (m.pi / 6)) ≤ 5 / scale

theorem elementHit_door (m : JsMath) (scale : ℚ) (d : Element) (w : ℚ)
    (al ar : Option String) (sd : Option Side) (hk : d.kind = .door w al ar sd)
    (x y : ℚ) :
    elementHit m scale d x y = true ↔
      (doorLeafBandHit scale w (doorLocal m d x y).x (doorLocal m d x y).y ∨
       doorArcSegmentHit m scale w (doorLocal m d x y).x (doorLocal m d x y).y) := by
  simp only [elementHit, hk, doorLeafBandHit, doorArcSegmentHit, doorLocal,
    decide_eq_true_eq]

/-- C5 (amended): findElementAt on a single Door registers a hit exactly when
the query point, transformed into the door's unrotated local frame, lies in
the 5/scale leaf band (0 ≤ localX ≤ width, |localY| ≤ 5/scale) or within
5/scale of the arc-end segment — the code's tolerance is 5/scale, not the
10/scale the claim states, and the leaf test is a perpendicular band test. -/
theorem door_hit_rule (m : JsMath) (scale : ℚ) (d : Element) (w : ℚ)
    (al ar : Option String) (sd : Option Side) (hk : d.kind = .door w al ar sd)
    (x y : ℚ) :
    findElementAt m scale [d] x y = some d ↔
      (doorLeafBandHit scale w (doorLocal m d x y).x (doorLocal m d x y).y ∨
       doorArcSegmentHit m scale w (doorLocal m d x y).x (doorLocal m d x y).y) := by
  rw [← elementHit_door m scale d w al ar sd hk x y]
  simp only [findElementAt, List.reverse_singleton]
  by_cases h : elementHit m scale d x y = true
  · cases hl : d.locked
    · simp [findElementAtAux, h, hl]
    · simp [findElementAtAux, h, hl, Option.orElse]
  · have hf : elementHit m scale d x y = false := by
      cases hh : elementHit m scale d x y
      · rfl
      · exact absurd hh h
    simp [findElementAtAux, hf]

/-- Witness instantiation for the door hit rule: a door at the origin with
rotation 0 and width 100 is hit at its local point (50, 3) with scale 1. -/
theorem door_hit_rule_witness :
    (({ id := "D1", x := 0, y := 0, color := "c", fillColor := "f",
        opacity := none, strokeWidth := 10, hideDimensions := false,
        rotation := 0, text := none, locked := false,
        kind := .door 100 none none none } : Element).kind =
      .door 100 none none none) ∧
    (findElementAt jsMathApprox 1
        [{ id := "D1", x := 0, y := 0, color := "c", fillColor := "f",
           opacity := none, strokeWidth := 10, hideDimensions := false,
           rotation := 0, text := none, locked := false,
           kind := .door 100 none none none }] 50 3 =
      some { id := "D1", x := 0, y := 0, color := "c", fillColor := "f",
             opacity := none, strokeWidth := 10, hideDimensions := false,
             rotation := 0, text := none, locked := false,
             kind := .door 100 none none none } ↔
      (doorLeafBandHit 1 100
          (doorLocal jsMathApprox
            { id := "D1", x := 0, y := 0, color := "c", fillColor := "f",
              opacity := none, strokeWidth := 10, hideDimensions := false,
              rotation := 0, text := none, locked := false,
              kind := .door 100 none none none } 50 3).x
          (doorLocal jsMathApprox
            { id := "D1", x := 0, y := 0, color := "c", fillColor := "f",
              opacity := none, strokeWidth := 10, hideDimensions := false,
              rotation := 0, text := none, locked := false,
              kind := .door 100 none none none } 50 3).y ∨
       doorArcSegmentHit jsMathApprox 1 100
          (doorLocal jsMathApprox
            { id := "D1", x := 0, y := 0, color := "c", fillColor := "f",
              opacity := none, strokeWidth := 10, hideDimensions := false,
              rotation := 0, text := none, locked := false,
              kind := .door 100 none none none } 50 3).x
          (doorLocal jsMathApprox
            { id := "D1", x := 0, y := 0, color := "c", fillColor := "f",
              opacity := none, strokeWidth := 10, hideDimensions := false,
              rotation := 0, text := none, locked := false,
              kind := .door 100 none none none } 50 3).y)) :=
  ⟨rfl, door_hit_rule jsMathApprox 1 _ 100 none none none rfl 50 3⟩

theorem ratSqrt_49 : ratSqrt 49 = 7 := by
  have := ratSqrt_natLit 49 7 rfl rfl (natSqrt_eval 49 7 (by norm_num) (by norm_num))
  norm_num at this
  exact this

theorem ratSqrt_2549 : ratSqrt 2549 = 50 := by
  have := ratSqrt_natLit 2549 50 rfl rfl (natSqrt_eval 2549 50 (by norm_num) (by norm_num))
  norm_num at this
  exact this

theorem jsCos_zero : jsCos 0 = 1 := by simp [jsCos]

theorem jsSin_zero : jsSin 0 = 0 := by simp [jsSin]

theorem jsCos_pi6 : jsCos (jsPi / 6) = 8660254037844387 / 10000000000000000 := by
  rw [jsCos, if_neg (by norm_num [jsPi]), if_pos rfl]

theorem jsSin_pi6 : jsSin (jsPi / 6) = 1 / 2 := by
  rw [jsSin, if_neg (by norm_num [jsPi]), if_pos rfl]

/-- The door used for the hit-tolerance counterexample: at the origin,
rotation 0, opening width 100, unlocked. -/
def sampleDoor : Element :=
  { id := "D1", x := 0, y := 0, color := "#000000", fillColor := "none",
    opacity := none, strokeWidth := 10, hideDimensions := false,
    rotation := 0, text := none, locked := false,
    kind := .door 100 none none none }

theorem sampleDoor_arc_distance :
    pointToLineDistance jsMathApprox 50 7 100 0
      (18660254037844387 / 100000000000000) 50 = 50 := by
  unfold pointToLineDistance
  norm_num
  show ratSqrt _ = 50
  norm_num [ratSqrt_2549]

/-- C5 counterexample: the query (50, 7) is, in the door's local frame,
exactly 7 away from the leaf segment (0,0)-(100,0) — within the claimed
10/scale tolerance at scale 1 — yet findElementAt on the single door
registers no hit, because the code's tolerance is 5/scale. -/
theorem door_hit_ten_px_counterexample :
    pointToLineDistance jsMathApprox 50 7 0 0 100 0 ≤ 10 / 1 ∧
    doorLocal jsMathApprox sampleDoor 50 7 = { x := 50, y := 7 } ∧
    findElementAt jsMathApprox 1 [sampleDoor] 50 7 = none := by
  have hleaf : pointToLineDistance jsMathApprox 50 7 0 0 100 0 = 7 := by
    unfold pointToLineDistance
    norm_num
    show ratSqrt _ = 7
    norm_num [ratSqrt_49]
  have hc0 : jsMathApprox.cos 0 = 1 := jsCos_zero
  have hs0 : jsMathApprox.sin 0 = 0 := jsSin_zero
  have hc6 : jsMathApprox.cos (jsMathApprox.pi / 6) =
      8660254037844387 / 10000000000000000 := jsCos_pi6
  have hs6 : jsMathApprox.sin (jsMathApprox.pi / 6) = 1 / 2 := jsSin_pi6
  have hhit : elementHit jsMathApprox 1 sampleDoor 50 7 = false := by
    simp only [elementHit, sampleDoor]
    norm_num [hc0, hs0, hc6, hs6, sampleDoor_arc_distance]
  refine ⟨by rw [hleaf]; norm_num, ?_, ?_⟩
  · simp only [doorLocal, sampleDoor]
    norm_num [hc0, hs0]
  · simp [findElementAt, findElementAtAux, hhit]

/-- Inclusive point-in-box containment, as the spec words it ("lies inside
the box"). -/
def inBoxSpec (box : SelBox) (p : Pt) : Prop :=
  box.x ≤ p.x ∧ p.x ≤ box.x + box.width ∧ box.y ≤ p.y ∧ p.y ≤ box.y + box.height

/-- The per-kind box-select inclusion rule, phrased from the specification:
Line — either endpoint lies inside the box; Rectangle/Text — one of the four
rotation-transformed corners lies inside the box; Circle — the axis-aligned
bounding square strictly overlaps the box (boundary-only contact excluded);
Door — the hinge point or the rotated latch endpoint lies inside the box. -/
def boxInclusionSpec (m : JsMath) (scale : ℚ) (box : SelBox) (e : Element) :
    Prop :=
  match e.kind with
  | .line eX eY _ =>
    inBoxSpec box { x := e.x, y := e.y } ∨ inBoxSpec box { x := eX, y := eY }
  | .rectangle w h _ _ =>
    ∃ c ∈ getRotatedCorners m e.x e.y w h e.rotation (e.x + w / 2) (e.y + h / 2),
      inBoxSpec box c
  | .text content fontSize _ =>
    ∃ c ∈ getRotatedCorners m e.x (e.y - fontSize / scale)
        ((content.length : ℚ) * (fontSize / scale) * (3 / 5)) (fontSize / scale)
        e.rotation e.x e.y, inBoxSpec box c
  | .circle r _ =>
    e.x - r < box.x + box.width ∧ box.x < e.x + r ∧
    e.y - r < box.y + box.height ∧ box.y < e.y + r
  | .door w _ _ _ =>
    inBoxSpec box { x := e.x, y := e.y } ∨
    inBoxSpec box { x := e.x + w * m.cos e.rotation, y := e.y + w * m.sin e.rotation }

theorem elementInBox_iff_spec (m : JsMath) (scale : ℚ) (box : SelBox)
    (e : Element) :
    elementInBox m scale box e = true ↔ boxInclusionSpec m scale box e := by
  cases hk : e.kind <;>
    simp [elementInBox, boxInclusionSpec, hk, isPointInBox, inBoxSpec,
      List.any_eq_true, decide_eq_true_eq]

/-- C7 (amended): on box-select release an element is committed iff it is in
the element list and satisfies the per-kind rule: Line — either endpoint in
the box; Rectangle/Text — a rotated corner in the box; Circle — the bounding
square strictly overlaps the box (the code uses strict inequalities, so a
square that only touches the box boundary is not included); Door — hinge or
rotated latch endpoint in the box. -/
theorem box_select_commit_rule (m : JsMath) (scale : ℚ) (box : SelBox)
    (els : List Element) (e : Element) :
    e ∈ elementsInBox m scale box els ↔
      e ∈ els ∧ boxInclusionSpec m scale box e := by
  rw [elementsInBox, List.mem_filter]
  exact and_congr_right fun _ => elementInBox_iff_spec m scale box e

/-- The circle whose bounding square touches, without overlapping, the
selection box of the counterexample. -/
def touchCircle : Element :=
  { id := "C1", x := 20, y := 0, color := "#000000", fillColor := "none",
    opacity := none, strokeWidth := 10, hideDimensions := false,
    rotation := 0, text := none, locked := false,
    kind := .circle 5 (1 / 2) }

/-- The selection box of the circle counterexample: right edge at x = 15. -/
def touchBox : SelBox := { x := 10, y := -5, width := 5, height := 10 }

/-- C7 counterexample: the bounding square [15,25]x[-5,5] of touchCircle and
touchBox = [10,15]x[-5,5] intersect (they share the point (15,0)), yet the
commit excludes the circle, because the code requires strict overlap. -/
theorem box_select_circle_touching_counterexample :
    (touchCircle.x - 5 ≤ 15 ∧ (15 : ℚ) ≤ touchCircle.x + 5 ∧
      touchCircle.y - 5 ≤ 0 ∧ (0 : ℚ) ≤ touchCircle.y + 5) ∧
    isPointInBox 15 0 touchBox = true ∧
    elementsInBox jsMathApprox 1 touchBox [touchCircle] = [] := by
  refine ⟨by norm_num [touchCircle], ?_, ?_⟩
  · simp only [isPointInBox, touchBox]
    norm_num
  · simp only [elementsInBox, touchCircle, touchBox, List.filter, elementInBox]
    norm_num

theorem findElementAtAux_unlocked_hit (m : JsMath) (scale x y : ℚ) :
    ∀ (l : List Element) (acc : Option Element) (u : Element), u ∈ l →
      elementHit m scale u x y = true → u.locked = false →
      ∃ r, findElementAtAux m scale x y l acc = some r ∧ r.locked = false := by
  intro l
  induction l with
  | nil =>
    intro acc u hu
    exact absurd hu (List.not_mem_nil u)
  | cons e rest ih =>
    intro acc u hu hhit hunlocked
    rcases List.mem_cons.mp hu with rfl | hmem
    · exact ⟨u, by simp [findElementAtAux, hhit, hunlocked], hunlocked⟩
    · by_cases hh : elementHit m scale e x y = true
      · cases hl2 : e.locked
        · exact ⟨e, by simp [findElementAtAux, hh, hl2], hl2⟩
        · have := ih (acc.orElse fun _ => some e) u hmem hhit hunlocked
          simpa [findElementAtAux, hh, hl2] using this
      · have hf : elementHit m scale e x y = false := by
          cases hhh : elementHit m scale e x y
          · rfl
          · exact absurd hhh hh
        have := ih acc u hmem hhit hunlocked
        simpa [findElementAtAux, hf] using this

/-- C9: box-selection ignores the locked flag — the per-element commit test
does not read `locked`, so a locked element satisfying its kind's geometric
rule is committed — while the primary hit-test match excludes locked
elements: whenever findElementAt returns a locked element, every hit in the
list is locked (an unlocked hit would have been returned instead). -/
theorem box_select_includes_locked (m : JsMath) (scale : ℚ) (box : SelBox)
    (els : List Element) (e : Element) (he : e ∈ els) (hl : e.locked = true)
    (hrule : boxInclusionSpec m scale box e) :
    e ∈ elementsInBox m scale box els ∧
    (∀ b : Bool, elementInBox m scale box { e with locked := b } =
      elementInBox m scale box e) ∧
    (∀ x y r, findElementAt m scale els x y = some r → r.locked = true →
      ∀ u ∈ els, elementHit m scale u x y = true → u.locked = true) := by
  refine ⟨?_, ?_, ?_⟩
  · rw [elementsInBox]
    exact List.mem_filter.mpr
      ⟨he, (elementInBox_iff_spec m scale box e).mpr hrule⟩
  · intro b
    rfl
  · intro x y r hfind hrl u hu hhit
    by_cases hul : u.locked = true
    · exact hul
    · exfalso
      have hufalse : u.locked = false := by
        cases hcase : u.locked
        · rfl
        · exact absurd hcase hul
      have hrev : u ∈ els.reverse := List.mem_reverse.mpr hu
      obtain ⟨r2, hr2, hr2l⟩ :=
        findElementAtAux_unlocked_hit m scale x y els.reverse none u hrev hhit hufalse
      rw [findElementAt] at hfind
      rw [hfind] at hr2
      cases hr2
      rw [hrl] at hr2l
      exact Bool.noConfusion hr2l

/-- The locked rectangle of the C9 witness. -/
def lockedRect : Element :=
  { id := "LR", x := 0, y := 0, color := "#000000", fillColor := "none",
    opacity := none, strokeWidth := 10, hideDimensions := false,
    rotation := 0, text := none, locked := true,
    kind := .rectangle 10 10 1 1 }

/-- The selection box of the C9 witness, covering the locked rectangle. -/
def wholeBox : SelBox := { x := -1, y := -1, width := 20, height := 20 }

theorem lockedRect_in_spec : boxInclusionSpec jsMathApprox 1 wholeBox lockedRect := by
  simp only [boxInclusionSpec, lockedRect]
  refine ⟨rotatePointAround jsMathApprox 0 0 (0 + 10 / 2) (0 + 10 / 2) 0, ?_, ?_⟩
  · simp [getRotatedCorners]
  · simp only [rotatePointAround, inBoxSpec, wholeBox]
    norm_num [jsMathApprox, jsCos, jsSin]

/-- Witness for C9: the locked rectangle is committed by the box selection. -/
theorem box_select_includes_locked_witness :
    lockedRect ∈ ([lockedRect] : List Element) ∧ lockedRect.locked = true ∧
    (lockedRect ∈ elementsInBox jsMathApprox 1 wholeBox [lockedRect] ∧
      (∀ b : Bool, elementInBox jsMathApprox 1 wholeBox { lockedRect with locked := b } =
        elementInBox jsMathApprox 1 wholeBox lockedRect) ∧
      (∀ x y r, findElementAt jsMathApprox 1 [lockedRect] x y = some r →
        r.locked = true → ∀ u ∈ ([lockedRect] : List Element),
          elementHit jsMathApprox 1 u x y = true → u.locked = true)) :=
  ⟨List.mem_singleton.mpr rfl, rfl,
    box_select_includes_locked jsMathApprox 1 wholeBox [lockedRect] lockedRect
      (List.mem_singleton.mpr rfl) rfl lockedRect_in_spec⟩

/-- A `Partial<CanvasElement>` update record: `none` means the field is
absent from the partial object (callers never pass an explicit undefined). -/
structure ElementUpdates where
  ux : Option ℚ
  uy : Option ℚ
  uendX : Option ℚ
  uendY : Option ℚ
  urotation : Option ℚ
  uwidth : Option ℚ
  uheight : Option ℚ
  uradius : Option ℚ
  ufontSize : Option ℚ
  ucontent : Option String
  ulengthCm : Option ℚ
  uwidthCm : Option ℚ
  uheightCm : Option ℚ
  uradiusCm : Option ℚ


/-- The empty partial update. -/
def noUpdate : ElementUpdates :=
  { ux := none, uy := none, uendX := none, uendY := none, urotation := none,
    uwidth := none, uheight := none, uradius := none, ufontSize := none,
    ucontent := none, ulengthCm := none, uwidthCm := none, uheightCm := none,
    uradiusCm := none }

/-- The object spread `{...e, ...updates}`: each present field overwrites the
corresponding field of the element; fields of other kinds are ignored (the
TypeScript object would carry them but nothing reads them). -/
def applyUpdates (e : Element) (u : ElementUpdates) : Element :=
  { e with
    x := u.ux.getD e.x
    y := u.uy.getD e.y
    rotation := u.urotation.getD e.rotation
    kind :=
      match e.kind with
      | .line eX eY lcm =>
        .line (u.uendX.getD eX) (u.uendY.getD eY) (u.ulengthCm.getD lcm)
      | .rectangle w h wc hc =>
        .rectangle (u.uwidth.getD w) (u.uheight.getD h)
          (u.uwidthCm.getD wc) (u.uheightCm.getD hc)
      | .text c fs ff => .text (u.ucontent.getD c) (u.ufontSize.getD fs) ff
      | .door w al ar sd => .door (u.uwidth.getD w) al ar sd
      | .circle r rc => .circle (u.uradius.getD r) (u.uradiusCm.getD rc) }

/-- The derived-field recomputation inside App.updateElement: after the
spread, a line always has endX/endY defined, a rectangle width/height, a
circle radius, so the source's undefined-guards are vacuously true and each
kind's centimeter fields are recomputed from pixel geometry. -/
def recomputeCm (m : JsMath) (ppcm : ℚ) (e : Element) : Element :=
  match e.kind with
  | .line eX eY _ =>
    { e with kind := ElementKind.line eX eY
                       (m.sqrt ((eX - e.x) * (eX - e.x) + (eY - e.y) * (eY - e.y)) / ppcm) }
  | .rectangle w h _ _ =>
    { e with kind := .rectangle w h (w / ppcm) (h / ppcm) }
  | .circle r _ => { e with kind := .circle r (r / ppcm) }
  | _ => e

/-- App.updateElement restricted to the current project's element list (the
history bookkeeping is not modelled): merge the partial update into the
matching element and recompute its centimeter fields. -/
def updateElement (m : JsMath) (ppcm : ℚ) (els : List Element)
    (elementId : String) (u : ElementUpdates) : List Element :=
  els.map fun e =>
    if e.id = elementId then recomputeCm m ppcm (applyUpdates e u) else e

/-- The per-element start-position snapshot entry captured at drag start. -/
structure StartPos where
  x : ℚ
  y : ℚ
  endX : Option ℚ
  endY : Option ℚ


/-- The component state relevant to the select/drag gesture. -/
structure CanvasState where
  elements : List Element
  selected : List String
  isDragging : Bool
  dragStart : Pt
  dragReferenceId : Option String
  startPositions : List (String × StartPos)
  doorOriginalRotation : ℚ
  drawStart : Pt
  potentialSelection : Bool


/-- The snapshot loop of handleMouseDown: for each id of the captured
selection, look the element up; skip missing or locked elements; record
x/y (plus endX/endY for lines). -/
def buildStartPositions (els : List Element) (selected : List String) :
    List (String × StartPos) :=
  selected.filterMap fun id =>
    match els.find? (fun e => decide (e.id = id)) with
    | none => none
    | some e =>
      if e.locked then none
      else
        match e.kind with
        | .line eX eY _ => some (id, { x := e.x, y := e.y, endX := some eX, endY := some eY })
        | _ => some (id, { x := e.x, y := e.y, endX := none, endY := none })

/-- Whether an element is a door. -/
def isDoorKind (e : Element) : Bool :=
  match e.kind with
  | .door _ _ _ _ => true
  | _ => false

/-- Whether an element is a line. -/
def isLineKind (e : Element) : Bool :=
  match e.kind with
  | .line _ _ _ => true
  | _ => false

/-- Whether an element is a rectangle. -/
def isRectangleKind (e : Element) : Bool :=
  match e.kind with
  | .rectangle _ _ _ _ => true
  | _ => false

/-- The select-tool branch of handleMouseDown (the pan and rotate/scale
handle guards having fallen through).  The start-position snapshot is built
from the selection captured BEFORE the selection update of this very click:
the source reads the `selectedElementIds` prop inside the same handler that
calls `onSelectElements`, and React delivers the updated prop only on the
next render. -/
def mouseDownSelect (m : JsMath) (scale : ℚ) (s : CanvasState) (p : Pt)
    (shift : Bool) : CanvasState :=
  match findElementAt m scale s.elements p.x p.y with
  | some clicked =>
    let newSelected :=
      if shift then
        if clicked.id ∈ s.selected then
          s.selected.filter fun id => decide (id ≠ clicked.id)
        else s.selected ++ [clicked.id]
      else if clicked.id ∈ s.selected then s.selected
      else [clicked.id]
    if clicked.locked then { s with selected := newSelected }
    else
      { s with
        selected := newSelected
        isDragging := true
        dragReferenceId := some clicked.id
        dragStart := p
        startPositions := buildStartPositions s.elements s.selected
        doorOriginalRotation :=
          if isDoorKind clicked then clicked.rotation
          else s.doorOriginalRotation }
  | none =>
    { s with
      selected := if shift then s.selected else []
      drawStart := p
      potentialSelection := true }

/-- A bare x/y move update. -/
def moveUpd (nx ny : ℚ) : ElementUpdates :=
  { noUpdate with ux := some nx, uy := some ny }

/-- An x/y move update that also writes the rotation field. -/
def moveRotUpd (nx ny rot : ℚ) : ElementUpdates :=
  { noUpdate with ux := some nx, uy := some ny, urotation := some rot }

/-- A line move update: both endpoints move by the delta. -/
def lineMoveUpd (nx ny nEndX nEndY : ℚ) : ElementUpdates :=
  { noUpdate with ux := some nx, uy := some ny,
                  uendX := some nEndX, uendY := some nEndY }

/-- The update emitted for one snapshot entry in the isDragging branch of
handleMouseMove.  Element lookups read the render-time element list captured
in the state (the prop the handler closed over), as in the source; `none`
means the entry is skipped (element missing or locked). -/
def dragUpdatesFor (m : JsMath) (scale : ℚ) (s : CanvasState) (p : Pt)
    (dx dy : ℚ) (id : String) (startPos : StartPos) : Option ElementUpdates :=
  match s.elements.find? (fun e => decide (e.id = id)) with
  | none => none
  | some element =>
    if element.locked then none
    else
      match element.kind, startPos.endX, startPos.endY with
      | .line _ _ _, some sEndX, some sEndY =>
        some (lineMoveUpd (startPos.x + dx) (startPos.y + dy)
          (sEndX + dx) (sEndY + dy))
      | .door _ al ar sd, _, _ =>
        if s.dragReferenceId = some id then
          let rawX := startPos.x + dx
          let rawY := startPos.y + dy
          if s.startPositions.length = 1 then
            match al with
            | some lineId =>
              match s.elements.find?
                  (fun e => decide (e.id = lineId) && isLineKind e) with
              | some attachedLine =>
                match attachedLine.kind with
                | .line aX aY _ =>
                  let lineVecX := aX - attachedLine.x
                  let lineVecY := aY - attachedLine.y
                  let lineLength := m.sqrt (lineVecX * lineVecX + lineVecY * lineVecY)
                  let lineUnitX := lineVecX / lineLength
                  let lineUnitY := lineVecY / lineLength
                  let toPointX := p.x - attachedLine.x
                  let toPointY := p.y - attachedLine.y
                  let projection := toPointX * lineUnitX + toPointY * lineUnitY
                  let clamped := max 0 (min lineLength projection)
                  some (moveRotUpd (attachedLine.x + clamped * lineUnitX)
                    (attachedLine.y + clamped * lineUnitY)
                    (m.atan2 lineVecY lineVecX))
                | _ => some (moveRotUpd rawX rawY element.rotation)
              | none => some (moveRotUpd rawX rawY element.rotation)
            | none =>
              match ar with
              | some rectId =>
                match s.elements.find?
                    (fun e => decide (e.id = rectId) && isRectangleKind e), sd with
                | some attachedRect, some side =>
                  match attachedRect.kind with
                  | .rectangle rw rh _ _ =>
                    let seg :=
                      match side with
                      | Side.top =>
                        (attachedRect.x, attachedRect.y,
                         attachedRect.x + rw, attachedRect.y)
                      | Side.bottom =>
                        (attachedRect.x, attachedRect.y + rh,
                         attachedRect.x + rw, attachedRect.y + rh)
                      | Side.left =>
                        (attachedRect.x, attachedRect.y,
                         attachedRect.x, attachedRect.y + rh)
                      | Side.right =>
                        (attachedRect.x + rw, attachedRect.y,
                         attachedRect.x + rw, attachedRect.y + rh)
                    match seg with
                    | (lineX1, lineY1, lineX2, lineY2) =>
                      let lineVecX := lineX2 - lineX1
                      let lineVecY := lineY2 - lineY1
                      let lineLength := m.sqrt (lineVecX * lineVecX + lineVecY * lineVecY)
                      let lineUnitX := lineVecX / lineLength
                      let lineUnitY := lineVecY / lineLength
                      let toPointX := p.x - lineX1
                      let toPointY := p.y - lineY1
                      let projection := toPointX * lineUnitX + toPointY * lineUnitY
                      let clamped := max 0 (min lineLength projection)
                      some (moveRotUpd (lineX1 + clamped * lineUnitX)
                        (lineY1 + clamped * lineUnitY)
                        (m.atan2 lineVecY lineVecX))
                  | _ => some (moveRotUpd rawX rawY element.rotation)
                | _, _ => some (moveRotUpd rawX rawY element.rotation)
              | none =>
                let snapped := findNearestLineOrWall m scale s.elements p
                if snapped.distance < ((30 / scale : ℚ) : WithTop ℚ) then
                  some (moveRotUpd snapped.x snapped.y snapped.rotation)
                else
                  some (moveRotUpd rawX rawY s.doorOriginalRotation)
          else
            some (moveRotUpd rawX rawY element.rotation)
        else
          some (moveUpd (startPos.x + dx) (startPos.y + dy))
      | _, _, _ =>
        some (moveUpd (startPos.x + dx) (startPos.y + dy))

/-- One onUpdateElement application of the drag loop (skipHistory = true):
a skipped entry leaves the accumulated list unchanged. -/
def dragStep (m : JsMath) (scale ppcm : ℚ) (s : CanvasState) (p : Pt)
    (dx dy : ℚ) (acc : List Element) (pr : String × StartPos) : List Element :=
  match dragUpdatesFor m scale s p dx dy pr.1 pr.2 with
  | none => acc
  | some u => updateElement m ppcm acc pr.1 u

/-- The isDragging branch of handleMouseMove: each snapshot entry emits its
update through onUpdateElement (= updateElement with skipHistory), applied in
snapshot order.  The guard mirrors the source's
isDragging / non-empty selection / dragReferenceId test; the earlier
pan, rotate and scale branches are modelled separately. -/
def handleDragMove (m : JsMath) (scale ppcm : ℚ) (s : CanvasState) (p : Pt) :
    CanvasState :=
  if s.isDragging = true ∧ s.selected ≠ [] ∧ s.dragReferenceId ≠ none then
    let dx := p.x - s.dragStart.x
    let dy := p.y - s.dragStart.y
    let newEls :=
      s.startPositions.foldl (dragStep m scale ppcm s p dx dy) s.elements
    { s with elements := newEls }
  else s

/-- The derived-length invariant for Line elements: the cached lengthCm is
the endpoint distance divided by pixelsPerCm. -/
def lineLengthInvariant (m : JsMath) (ppcm : ℚ) (e : Element) : Prop :=
  ∀ eX eY lcm, e.kind = .line eX eY lcm →
    lcm = m.sqrt ((eX - e.x) * (eX - e.x) + (eY - e.y) * (eY - e.y)) / ppcm

/-- C3: for every Line element, every partial update applied through
updateElement and every positive pixelsPerCm, the updated element satisfies
lengthCm = sqrt((endX-x)^2 + (endY-y)^2) / pixelsPerCm — the cached field is
recomputed on every update, including endpoint changes. -/
theorem updateElement_line_lengthCm (m : JsMath) (ppcm : ℚ)
    (els : List Element) (elementId : String) (u : ElementUpdates)
    (hp : 0 < ppcm) (e : Element)
    (he : e ∈ updateElement m ppcm els elementId u) (hid : e.id = elementId) :
    lineLengthInvariant m ppcm e := by
  rcases List.mem_map.mp he with ⟨e0, he0, heq⟩
  by_cases h : e0.id = elementId
  · rw [if_pos h] at heq
    subst heq
    intro eX eY lcm hk
    cases hk0 : (applyUpdates e0 u).kind with
    | line aX aY alcm =>
      simp only [recomputeCm, hk0] at hk ⊢
      obtain ⟨h1, h2, h3⟩ := ElementKind.line.injEq .. |>.mp hk
      subst h1
      subst h2
      exact h3.symm
    | rectangle w h wc hc => simp [recomputeCm, hk0] at hk
    | text c fs ff => simp [recomputeCm, hk0] at hk
    | door w al ar sd => simp [recomputeCm, hk0] at hk
    | circle r rc => simp [recomputeCm, hk0] at hk
  · rw [if_neg h] at heq
    subst heq
    exact absurd hid h

/-- The line of the C3 witness. -/
def wLine : Element :=
  { id := "L2", x := 0, y := 0, color := "#000000", fillColor := "none",
    opacity := none, strokeWidth := 10, hideDimensions := false,
    rotation := 0, text := none, locked := false,
    kind := .line 3 4 (1 / 2) }

/-- The partial update of the C3 witness: move the far endpoint. -/
def wUpd : ElementUpdates :=
  { noUpdate with uendX := some 30, uendY := some 40 }

/-- Witness for C3: updating wLine's endpoint recomputes its lengthCm. -/
theorem updateElement_line_lengthCm_witness :
    (0 : ℚ) < 10 ∧
    lineLengthInvariant jsMathApprox 10
      (recomputeCm jsMathApprox 10 (applyUpdates wLine wUpd)) := by
  refine ⟨by norm_num, ?_⟩
  have hmem : recomputeCm jsMathApprox 10 (applyUpdates wLine wUpd) ∈
      updateElement jsMathApprox 10 [wLine] "L2" wUpd := by
    simp only [updateElement, List.map_cons, List.map_nil]
    rw [if_pos (show wLine.id = "L2" from rfl)]
    exact List.mem_singleton.mpr rfl
  exact updateElement_line_lengthCm jsMathApprox 10 [wLine] "L2" wUpd
    (by norm_num) _ hmem rfl

theorem applyUpdates_id (e : Element) (u : ElementUpdates) :
    (applyUpdates e u).id = e.id := rfl

theorem recomputeCm_id (m : JsMath) (ppcm : ℚ) (e : Element) :
    (recomputeCm m ppcm e).id = e.id := by
  cases hk : e.kind <;> simp [recomputeCm, hk]

theorem updateElement_find_id (m : JsMath) (ppcm : ℚ) (els : List Element)
    (tid : String) (u : ElementUpdates) (qid : String) :
    (updateElement m ppcm els tid u).find? (fun e => decide (e.id = qid)) =
      Option.map
        (fun e => if e.id = tid then recomputeCm m ppcm (applyUpdates e u) else e)
        (els.find? (fun e => decide (e.id = qid))) := by
  have hp : (fun e : Element => decide (e.id = qid)) ∘
      (fun e => if e.id = tid then recomputeCm m ppcm (applyUpdates e u) else e) =
      fun e : Element => decide (e.id = qid) := by
    funext e
    by_cases h : e.id = tid <;>
      simp [Function.comp, h, recomputeCm_id, applyUpdates_id]
  rw [updateElement, List.find?_map, hp]

theorem updateElement_find_ne (m : JsMath) (ppcm : ℚ) (els : List Element)
    (tid : String) (u : ElementUpdates) (qid : String) (hne : qid ≠ tid) :
    (updateElement m ppcm els tid u).find? (fun e => decide (e.id = qid)) =
      els.find? (fun e => decide (e.id = qid)) := by
  rw [updateElement_find_id]
  cases hf : els.find? (fun e => decide (e.id = qid)) with
  | none => rfl
  | some e =>
    have hid : e.id = qid := by simpa using List.find?_some hf
    have hsame : (if e.id = tid then recomputeCm m ppcm (applyUpdates e u) else e) = e := by
      rw [hid, if_neg hne]
    simp [hsame]

theorem find_id_of_mem_nodup (els : List Element) (d : Element)
    (hmem : d ∈ els) (hnd : (els.map Element.id).Nodup) :
    els.find? (fun e => decide (e.id = d.id)) = some d := by
  induction els with
  | nil => exact absurd hmem (List.not_mem_nil d)
  | cons e rest ih =>
    rcases List.mem_cons.mp hmem with rfl | hmem2
    · exact List.find?_cons_of_pos rest (by simp)
    · have hnds := List.nodup_cons.mp hnd
      have hne : e.id ≠ d.id := by
        intro hcontra
        exact hnds.1 (hcontra ▸ List.mem_map_of_mem Element.id hmem2)
      rw [List.find?_cons_of_neg rest (by simp [hne])]
      exact ih hmem2 hnds.2

theorem dragStep_find_ne (m : JsMath) (scale ppcm : ℚ) (s : CanvasState)
    (p : Pt) (dx dy : ℚ) (qid : String) (acc : List Element)
    (pr : String × StartPos) (hne : pr.1 ≠ qid) :
    (dragStep m scale ppcm s p dx dy acc pr).find?
        (fun e => decide (e.id = qid)) =
      acc.find? (fun e => decide (e.id = qid)) := by
  rw [dragStep]
  cases dragUpdatesFor m scale s p dx dy pr.1 pr.2 with
  | none => rfl
  | some u => exact updateElement_find_ne m ppcm acc pr.1 u qid (Ne.symm hne)

theorem drag_fold_find_ne (m : JsMath) (scale ppcm : ℚ) (s : CanvasState)
    (p : Pt) (dx dy : ℚ) (qid : String) :
    ∀ (l : List (String × StartPos)) (acc : List Element),
      (∀ pr ∈ l, pr.1 ≠ qid) →
      (l.foldl (dragStep m scale ppcm s p dx dy) acc).find?
          (fun e => decide (e.id = qid)) =
        acc.find? (fun e => decide (e.id = qid)) := by
  intro l
  induction l with
  | nil => intro acc _; rfl
  | cons hd tl ih =>
    intro acc hne
    rw [List.foldl_cons]
    rw [ih _ (fun pr hpr => hne pr (List.mem_cons_of_mem hd hpr))]
    exact dragStep_find_ne m scale ppcm s p dx dy qid acc hd
      (hne hd (List.mem_cons_self hd tl))

theorem drag_fold_find_applied (m : JsMath) (scale ppcm : ℚ)
    (s : CanvasState) (p : Pt) (dx dy : ℚ) (qid : String) (pos : StartPos)
    (u : ElementUpdates) (d : Element)
    (hu : dragUpdatesFor m scale s p dx dy qid pos = some u)
    (hdid : d.id = qid) :
    ∀ (l : List (String × StartPos)) (acc : List Element),
      (qid, pos) ∈ l → (l.map Prod.fst).Nodup →
      acc.find? (fun e => decide (e.id = qid)) = some d →
      (l.foldl (dragStep m scale ppcm s p dx dy) acc).find?
          (fun e => decide (e.id = qid)) =
        some (recomputeCm m ppcm (applyUpdates d u)) := by
  intro l
  induction l with
  | nil => intro acc h; exact absurd h (List.not_mem_nil _)
  | cons hd tl ih =>
    intro acc hmem hnd hacc
    rcases List.mem_cons.mp hmem with heq | hmem2
    · subst heq
      rw [List.foldl_cons]
      have hkeys : ∀ pr ∈ tl, pr.1 ≠ qid := by
        intro pr hpr hcontra
        have hqmem : qid ∈ tl.map Prod.fst := by
          rw [← hcontra]
          exact List.mem_map_of_mem Prod.fst hpr
        exact (List.nodup_cons.mp hnd).1 hqmem
      rw [drag_fold_find_ne m scale ppcm s p dx dy qid tl _ hkeys]
      show (dragStep m scale ppcm s p dx dy acc (qid, pos)).find? _ = _
      rw [dragStep]
      rw [hu]
      rw [updateElement_find_id, hacc]
      have hsame : (if d.id = (qid, pos).1 then
          recomputeCm m ppcm (applyUpdates d u) else d) =
          recomputeCm m ppcm (applyUpdates d u) := by
        rw [if_pos hdid]
      simp [hsame]
    · have hne : hd.1 ≠ qid := by
        intro hcontra
        have hqmem : qid ∈ tl.map Prod.fst :=
          List.mem_map_of_mem Prod.fst hmem2
        refine (List.nodup_cons.mp hnd).1 ?_
        rw [hcontra]
        exact hqmem
      rw [List.foldl_cons]
      apply ih _ hmem2 (List.nodup_cons.mp hnd).2
      rw [dragStep_find_ne m scale ppcm s p dx dy qid acc hd hne]
      exact hacc

theorem recompute_apply_door_move (m : JsMath) (ppcm : ℚ) (d : Element)
    (w : ℚ) (al ar : Option String) (sd : Option Side)
    (hk : d.kind = .door w al ar sd) (nx ny : ℚ) :
    recomputeCm m ppcm (applyUpdates d (moveUpd nx ny)) =
      { d with x := nx, y := ny } ∧
    recomputeCm m ppcm (applyUpdates d (moveRotUpd nx ny d.rotation)) =
      { d with x := nx, y := ny } := by
  cases d with
  | mk id x y color fillColor opacity strokeWidth hideDimensions rotation text locked kind =>
    simp only at hk
    subst hk
    constructor <;> rfl

/-- C8: whenever the drag snapshot holds more than one element, every Door in
it — reference element or not — is moved by exactly the raw world-space
delta: new position is its snapshot position plus the delta, and rotation,
attachment fields and everything else are unchanged; the result does not
depend on any wall projection or nearest-segment search (the conclusion holds
for every element list and every JsMath). -/
theorem multi_drag_door_raw_delta (m : JsMath) (scale ppcm : ℚ)
    (s : CanvasState) (p : Pt)
    (hdrag : s.isDragging = true) (hsel : s.selected ≠ [])
    (href : s.dragReferenceId ≠ none)
    (hsize : 1 < s.startPositions.length)
    (d : Element) (w : ℚ) (al ar : Option String) (sd : Option Side)
    (hk : d.kind = .door w al ar sd) (hlock : d.locked = false)
    (hmem : d ∈ s.elements) (hnd : (s.elements.map Element.id).Nodup)
    (pos : StartPos) (hpos : (d.id, pos) ∈ s.startPositions)
    (hkeys : (s.startPositions.map Prod.fst).Nodup) :
    (handleDragMove m scale ppcm s p).elements.find?
        (fun e => decide (e.id = d.id)) =
      some { d with x := pos.x + (p.x - s.dragStart.x),
                    y := pos.y + (p.y - s.dragStart.y) } := by
  have hfind : s.elements.find? (fun e => decide (e.id = d.id)) = some d :=
    find_id_of_mem_nodup s.elements d hmem hnd
  have hlen : s.startPositions.length ≠ 1 := ne_of_gt hsize
  have hels : (handleDragMove m scale ppcm s p).elements =
      s.startPositions.foldl
        (dragStep m scale ppcm s p (p.x - s.dragStart.x) (p.y - s.dragStart.y))
        s.elements := by
    rw [handleDragMove, if_pos ⟨hdrag, hsel, href⟩]
  rw [hels]
  by_cases hr : s.dragReferenceId = some d.id
  · have hu : dragUpdatesFor m scale s p (p.x - s.dragStart.x)
        (p.y - s.dragStart.y) d.id pos =
        some (moveRotUpd (pos.x + (p.x - s.dragStart.x))
          (pos.y + (p.y - s.dragStart.y)) d.rotation) := by
      rw [dragUpdatesFor, hfind]
      simp only [hlock, hk, Bool.false_eq_true, if_false]
      rw [if_pos hr, if_neg hlen]
    rw [drag_fold_find_applied m scale ppcm s p (p.x - s.dragStart.x)
      (p.y - s.dragStart.y) d.id pos _ d hu rfl s.startPositions s.elements
      hpos hkeys hfind]
    rw [(recompute_apply_door_move m ppcm d w al ar sd hk _ _).2]
  · have hu : dragUpdatesFor m scale s p (p.x - s.dragStart.x)
        (p.y - s.dragStart.y) d.id pos =
        some (moveUpd (pos.x + (p.x - s.dragStart.x))
          (pos.y + (p.y - s.dragStart.y))) := by
      rw [dragUpdatesFor, hfind]
      simp only [hlock, hk, Bool.false_eq_true, if_false]
      rw [if_neg hr]
    rw [drag_fold_find_applied m scale ppcm s p (p.x - s.dragStart.x)
      (p.y - s.dragStart.y) d.id pos _ d hu rfl s.startPositions s.elements
      hpos hkeys hfind]
    rw [(recompute_apply_door_move m ppcm d w al ar sd hk _ _).1]

/-- The door of the C8 witness: attached to line L9, dragged in a
two-element snapshot. -/
def wDoor : Element :=
  { id := "D2", x := 5, y := 5, color := "#000000", fillColor := "none",
    opacity := none, strokeWidth := 10, hideDimensions := false,
    rotation := 0, text := none, locked := false,
    kind := .door 80 (some "L9") none none }

/-- The second dragged element of the C8 witness. -/
def wOther : Element :=
  { id := "R9", x := 0, y := 0, color := "#000000", fillColor := "none",
    opacity := none, strokeWidth := 10, hideDimensions := false,
    rotation := 0, text := none, locked := false,
    kind := .rectangle 40 40 4 4 }

/-- The wall the C8 witness door is attached to (present but ignored during
the multi-drag). -/
def wAttachLine : Element :=
  { id := "L9", x := 200, y := 0, color := "#000000", fillColor := "none",
    opacity := none, strokeWidth := 10, hideDimensions := false,
    rotation := 0, text := none, locked := false,
    kind := .line 300 0 10 }

/-- The mid-drag state of the C8 witness: two-element snapshot, door is the
reference. -/
def wState : CanvasState :=
  { elements := [wDoor, wOther, wAttachLine]
    selected := ["D2", "R9"]
    isDragging := true
    dragStart := { x := 0, y := 0 }
    dragReferenceId := some "D2"
    startPositions := [("D2", { x := 5, y := 5, endX := none, endY := none }),
                       ("R9", { x := 0, y := 0, endX := none, endY := none })]
    doorOriginalRotation := 0
    drawStart := { x := 0, y := 0 }
    potentialSelection := false }

/-- Witness for C8: in the two-element drag the attached door moves by the
raw delta (10, 20), keeping rotation and attachment. -/
theorem multi_drag_door_raw_delta_witness :
    (handleDragMove jsMathApprox 1 10 wState { x := 10, y := 20 }).elements.find?
        (fun e => decide (e.id = wDoor.id)) =
      some { wDoor with x := 5 + ((10 : ℚ) - 0), y := 5 + ((20 : ℚ) - 0) } :=
  multi_drag_door_raw_delta jsMathApprox 1 10 wState { x := 10, y := 20 }
    rfl (by simp [wState]) (by simp [wState]) (by simp [wState])
    wDoor 80 (some "L9") none none rfl rfl
    (List.mem_cons_self wDoor [wOther, wAttachLine])
    (by simp [wState, wDoor, wOther, wAttachLine])
    { x := 5, y := 5, endX := none, endY := none }
    (List.mem_cons_self _ _)
    (by simp [wState])

/-- The unlocked rectangle of the C4 failing input. -/
def rectA : Element :=
  { id := "R1", x := 0, y := 0, color := "#000000", fillColor := "none",
    opacity := none, strokeWidth := 10, hideDimensions := false,
    rotation := 0, text := none, locked := false,
    kind := .rectangle 100 50 10 5 }

theorem rectA_hit : elementHit jsMathApprox 1 rectA 50 25 = true := by
  rw [elementHit.eq_def]
  simp only [rectA]
  norm_num [jsMathApprox, jsCos, jsSin]

theorem rectA_locked : rectA.locked = false := rfl

theorem rectA_found : findElementAt jsMathApprox 1 [rectA] 50 25 = some rectA := by
  simp [findElementAt, findElementAtAux, rectA_hit, rectA_locked]

/-- The idle state before the C4 gesture: nothing selected, no drag. -/
def freshState : CanvasState :=
  { elements := [rectA]
    selected := []
    isDragging := false
    dragStart := { x := 0, y := 0 }
    dragReferenceId := none
    startPositions := []
    doorOriginalRotation := 0
    drawStart := { x := 0, y := 0 }
    potentialSelection := false }

/-- C4 failing input: pointer-down at (50,25) on the unlocked, not
previously selected rectangle enters Dragging and selects it, but the
start-position snapshot is built from the stale pre-click selection and is
therefore empty, so the following pointer move by (10,10) leaves the
rectangle at (0,0) instead of moving it by the delta. -/
theorem fresh_click_drag_ignores_rectangle :
    (mouseDownSelect jsMathApprox 1 freshState { x := 50, y := 25 } false).isDragging
        = true ∧
    (mouseDownSelect jsMathApprox 1 freshState { x := 50, y := 25 } false).selected
        = ["R1"] ∧
    (mouseDownSelect jsMathApprox 1 freshState { x := 50, y := 25 } false).startPositions
        = [] ∧
    rectA.locked = false ∧
    (handleDragMove jsMathApprox 1 10
        (mouseDownSelect jsMathApprox 1 freshState { x := 50, y := 25 } false)
        { x := 60, y := 35 }).elements = [rectA] := by
  have hdown : mouseDownSelect jsMathApprox 1 freshState { x := 50, y := 25 } false =
      { freshState with
        selected := ["R1"]
        isDragging := true
        dragReferenceId := some "R1"
        dragStart := { x := 50, y := 25 } } := by
    rw [mouseDownSelect.eq_def]
    simp only [freshState]
    rw [rectA_found]
    simp [rectA, buildStartPositions, isDoorKind]
  rw [hdown]
  refine ⟨rfl, rfl, rfl, rfl, ?_⟩
  rw [handleDragMove.eq_def]
  simp [freshState]

/-- Scale-handle identifiers from the source: n, s, e, w, ne, nw, se, sw. -/
inductive ScaleHandle where
  | n
  | s
  | e
  | w
  | ne
  | nw
  | se
  | sw


/-- `scaleHandle.includes('w')` over the eight handle strings. -/
def hasW : ScaleHandle → Bool
  | .w => true
  | .nw => true
  | .sw => true
  | _ => false

/-- `scaleHandle.includes('e')` over the eight handle strings. -/
def hasE : ScaleHandle → Bool
  | .e => true
  | .ne => true
  | .se => true
  | _ => false

/-- `scaleHandle.includes('n')` over the eight handle strings. -/
def hasN : ScaleHandle → Bool
  | .n => true
  | .ne => true
  | .nw => true
  | _ => false

/-- `scaleHandle.includes('s')` over the eight handle strings. -/
def hasS : ScaleHandle → Bool
  | .s => true
  | .se => true
  | .sw => true
  | _ => false

/-- The sequential per-handle field computation of the Rectangle scaling
branch: w moves x and shrinks width, e grows width, n moves y and shrinks
height, s grows height (assignments in source order, later ones overwrite). -/
def scaleRectangle (x y w h : ℚ) (handle : ScaleHandle) (dx dy : ℚ) :
    ℚ × ℚ × ℚ × ℚ :=
  let newX := if hasW handle then x + dx else x
  let newWidth1 := if hasW handle then w - dx else w
  let newWidth := if hasE handle then w + dx else newWidth1
  let newY := if hasN handle then y + dy else y
  let newHeight1 := if hasN handle then h - dy else h
  let newHeight := if hasS handle then h + dy else newHeight1
  (newX, newY, newWidth, newHeight)

/-- The all-four-fields update of a successful Rectangle scaling move. -/
def scaleUpd (nx ny nw nh : ℚ) : ElementUpdates :=
  { noUpdate with ux := some nx, uy := some ny,
                  uwidth := some nw, uheight := some nh }

/-- The font-size update of a Text scaling move. -/
def fontUpd (fs : ℚ) : ElementUpdates :=
  { noUpdate with ufontSize := some fs }

/-- The isScaling branch of handleMouseMove: active only with a single
selected element; for a Rectangle the handle-mapped fields are computed and
the update is applied — and the drag anchor advanced — only when both new
width and new height exceed the 10px floor; for a Text only e/ne/se handles
act, adjusting font size by the diagonal delta with a floor of 8.  Returns
the element list and the drawStart anchor after the move. -/
def handleScaleMove (m : JsMath) (ppcm : ℚ) (els : List Element)
    (selectedIds : List String) (handle : ScaleHandle) (drawStart p : Pt) :
    List Element × Pt :=
  match selectedIds with
  | [onlyId] =>
    match els.find? (fun e => decide (e.id = onlyId)) with
    | some el =>
      match el.kind with
      | .rectangle w h _ _ =>
        let dx := p.x - drawStart.x
        let dy := p.y - drawStart.y
        match scaleRectangle el.x el.y w h handle dx dy with
        | (nx, ny, nw, nh) =>
          if 10 < nw ∧ 10 < nh then
            (updateElement m ppcm els onlyId (scaleUpd nx ny nw nh), p)
          else (els, drawStart)
      | .text _ fontSize _ =>
        if hasE handle then
          let dx := p.x - drawStart.x
          let dy := p.y - drawStart.y
          (updateElement m ppcm els onlyId
            (fontUpd (max 8 (fontSize + (dx + dy) / 2))), p)
        else (els, drawStart)
      | _ => (els, drawStart)
    | none => (els, drawStart)
  | _ => (els, drawStart)

theorem recompute_apply_scale (m : JsMath) (ppcm : ℚ) (r : Element)
    (w h wc hc : ℚ) (hk : r.kind = .rectangle w h wc hc) (nx ny nw nh : ℚ) :
    recomputeCm m ppcm (applyUpdates r (scaleUpd nx ny nw nh)) =
      { r with x := nx, y := ny,
               kind := .rectangle nw nh (nw / ppcm) (nh / ppcm) } := by
  cases r with
  | mk id x y color fillColor opacity strokeWidth hideDimensions rotation text locked kind =>
    simp only at hk
    subst hk
    rfl

/-- C6 (amended): a Rectangle scaling move is all-or-nothing, with an
exclusive 10px floor: when the handle-mapped new width and height both
exceed 10, all of x, y, width, height are applied (and the centimeter fields
recomputed) and the anchor advances; otherwise — including results exactly
at the 10px floor — nothing changes at all. -/
theorem rectangle_scale_all_or_nothing (m : JsMath) (ppcm : ℚ)
    (els : List Element) (rid : String) (r : Element) (w h wc hc : ℚ)
    (handle : ScaleHandle) (drawStart p : Pt) (nx ny nw nh : ℚ)
    (hfind : els.find? (fun e => decide (e.id = rid)) = some r)
    (hk : r.kind = .rectangle w h wc hc)
    (hscale : scaleRectangle r.x r.y w h handle (p.x - drawStart.x)
        (p.y - drawStart.y) = (nx, ny, nw, nh)) :
    (¬ (10 < nw ∧ 10 < nh) →
      handleScaleMove m ppcm els [rid] handle drawStart p = (els, drawStart)) ∧
    ((10 < nw ∧ 10 < nh) →
      handleScaleMove m ppcm els [rid] handle drawStart p =
        (updateElement m ppcm els rid (scaleUpd nx ny nw nh), p) ∧
      (handleScaleMove m ppcm els [rid] handle drawStart p).1.find?
          (fun e => decide (e.id = rid)) =
        some { r with x := nx, y := ny,
                      kind := .rectangle nw nh (nw / ppcm) (nh / ppcm) }) := by
  have hrid : r.id = rid := by simpa using List.find?_some hfind
  have hbody : handleScaleMove m ppcm els [rid] handle drawStart p =
      if 10 < nw ∧ 10 < nh then
        (updateElement m ppcm els rid (scaleUpd nx ny nw nh), p)
      else (els, drawStart) := by
    rw [handleScaleMove.eq_def]
    simp only [hfind, hk, hscale]
  constructor
  · intro hno
    rw [hbody, if_neg hno]
  · intro hyes
    have h1 : handleScaleMove m ppcm els [rid] handle drawStart p =
        (updateElement m ppcm els rid (scaleUpd nx ny nw nh), p) := by
      rw [hbody, if_pos hyes]
    refine ⟨h1, ?_⟩
    rw [h1]
    show (updateElement m ppcm els rid (scaleUpd nx ny nw nh)).find? _ = _
    rw [updateElement_find_id, hfind]
    have hsame : (if r.id = rid then
        recomputeCm m ppcm (applyUpdates r (scaleUpd nx ny nw nh)) else r) =
        recomputeCm m ppcm (applyUpdates r (scaleUpd nx ny nw nh)) := by
      rw [if_pos hrid]
    simp only [Option.map, hsame]
    rw [recompute_apply_scale m ppcm r w h wc hc hk nx ny nw nh]

/-- The rectangle of the C6 witness and counterexample. -/
def scaleRect : Element :=
  { id := "R2", x := 0, y := 0, color := "#000000", fillColor := "none",
    opacity := none, strokeWidth := 10, hideDimensions := false,
    rotation := 0, text := none, locked := false,
    kind := .rectangle 20 20 2 2 }

theorem scaleRect_found :
    [scaleRect].find? (fun e => decide (e.id = "R2")) = some scaleRect :=
  List.find?_cons_of_pos [] (by rfl)

/-- C6 counterexample: dragging the east handle of the 20x20 rectangle by
dx = -10 yields new width exactly 10 — not below the 10px floor, so the
claim's "otherwise" branch says the update is applied — yet the code
discards the whole move (it requires width and height strictly above 10). -/
theorem rectangle_scale_exact_floor_counterexample :
    scaleRectangle 0 0 20 20 ScaleHandle.e (-10) 0 = (0, 0, 10, 20) ∧
    ¬ ((10 : ℚ) < 10) ∧
    handleScaleMove jsMathApprox 10 [scaleRect] ["R2"] ScaleHandle.e
        { x := 20, y := 10 } { x := 10, y := 10 } =
      ([scaleRect], { x := 20, y := 10 }) := by
  refine ⟨by norm_num [scaleRectangle, hasW, hasE, hasN, hasS], by norm_num, ?_⟩
  rw [handleScaleMove.eq_def]
  simp only [scaleRect_found]
  have hk : scaleRect.kind = .rectangle 20 20 2 2 := rfl
  simp only [hk]
  have hscale : scaleRectangle scaleRect.x scaleRect.y 20 20 ScaleHandle.e
      (({ x := 10, y := 10 } : Pt).x - ({ x := 20, y := 10 } : Pt).x)
      (({ x := 10, y := 10 } : Pt).y - ({ x := 20, y := 10 } : Pt).y) =
      (0, 0, 10, 20) := by
    norm_num [scaleRectangle, hasW, hasE, hasN, hasS, scaleRect]
  rw [hscale]
  rw [if_neg (by norm_num)]

/-- Witness for C6 at a successful move: east handle dragged by dx = +20
applies all four fields and recomputes the centimeter fields. -/
theorem rectangle_scale_all_or_nothing_witness :
    ((10 : ℚ) < 40 ∧ (10 : ℚ) < 20) ∧
    (handleScaleMove jsMathApprox 10 [scaleRect] ["R2"] ScaleHandle.e
        { x := 20, y := 10 } { x := 40, y := 10 } =
      (updateElement jsMathApprox 10 [scaleRect] "R2" (scaleUpd 0 0 40 20),
        { x := 40, y := 10 }) ∧
     (handleScaleMove jsMathApprox 10 [scaleRect] ["R2"] ScaleHandle.e
        { x := 20, y := 10 } { x := 40, y := 10 }).1.find?
          (fun e => decide (e.id = "R2")) =
        some { scaleRect with x := 0, y := 0,
                              kind := .rectangle 40 20 (40 / 10) (20 / 10) }) := by
  have hscale : scaleRectangle scaleRect.x scaleRect.y 20 20 ScaleHandle.e
      (({ x := 40, y := 10 } : Pt).x - ({ x := 20, y := 10 } : Pt).x)
      (({ x := 40, y := 10 } : Pt).y - ({ x := 20, y := 10 } : Pt).y) =
      (0, 0, 40, 20) := by
    norm_num [scaleRectangle, hasW, hasE, hasN, hasS, scaleRect]
  have happ := rectangle_scale_all_or_nothing jsMathApprox 10 [scaleRect] "R2"
    scaleRect 20 20 2 2 ScaleHandle.e { x := 20, y := 10 } { x := 40, y := 10 }
    0 0 40 20 scaleRect_found rfl hscale
  exact ⟨⟨by norm_num, by norm_num⟩, happ.2 ⟨by norm_num, by norm_num⟩⟩

/-- One pasted/duplicated element: the spread copy with a fresh id and
x/y (+20, +20); for a Line the endpoint is offset by (+20, +20) too. -/
def offsetClone (newId : String) (src : Element) : Element :=
  let base := { src with id := newId, x := src.x + 20, y := src.y + 20 }
  match src.kind with
  | .line eX eY lcm => { base with kind := .line (eX + 20) (eY + 20) lcm }
  | _ => base

/-- The copied-elements map of the paste/duplicate handlers, with the i-th
generateId() call modelled by `freshIds (start + i)`. -/
def cloneAll (freshIds : ℕ → String) : ℕ → List Element → List Element
  | _, [] => []
  | i, e :: rest => offsetClone (freshIds i) e :: cloneAll freshIds (i + 1) rest

/-- The Ctrl/Cmd+V branch of handleKeyDown: with a non-empty copy buffer,
append the clones and select exactly their ids; otherwise nothing happens. -/
def pasteAction (freshIds : ℕ → String) (els : List Element)
    (selected : List String) (copied : List Element) :
    List Element × List String :=
  if copied.length > 0 then
    let newElements := cloneAll freshIds 0 copied
    (els ++ newElements, newElements.map Element.id)
  else (els, selected)

/-- The Ctrl/Cmd+D branch of handleKeyDown: with a non-empty selection,
clone the selected elements (in list order), append them and select exactly
their ids. -/
def duplicateAction (freshIds : ℕ → String) (els : List Element)
    (selected : List String) : List Element × List String :=
  if selected.length > 0 then
    let sources := els.filter fun el => decide (el.id ∈ selected)
    let newElements := cloneAll freshIds 0 sources
    (els ++ newElements, newElements.map Element.id)
  else (els, selected)

/-- "Identical to the source except a fresh id and a (+20,+20) offset":
the id is the fresh one, x and y are offset by 20, every other common field
agrees, a Line kind additionally offsets endX/endY keeping lengthCm, and any
other kind payload (including Door attachments) is copied verbatim. -/
def clonedWithOffset (nid : String) (src tgt : Element) : Prop :=
  tgt.id = nid ∧ tgt.x = src.x + 20 ∧ tgt.y = src.y + 20 ∧
  tgt.color = src.color ∧ tgt.fillColor = src.fillColor ∧
  tgt.opacity = src.opacity ∧ tgt.strokeWidth = src.strokeWidth ∧
  tgt.hideDimensions = src.hideDimensions ∧ tgt.rotation = src.rotation ∧
  tgt.text = src.text ∧ tgt.locked = src.locked ∧
  (∀ eX eY lcm, src.kind = .line eX eY lcm →
    tgt.kind = .line (eX + 20) (eY + 20) lcm) ∧
  (isLineKind src = false → tgt.kind = src.kind)

theorem offsetClone_spec (nid : String) (src : Element) :
    clonedWithOffset nid src (offsetClone nid src) := by
  cases hk : src.kind <;>
    simp [offsetClone, clonedWithOffset, hk, isLineKind]

theorem cloneAll_get (freshIds : ℕ → String) :
    ∀ (l : List Element) (start i : ℕ) (src : Element),
      l.get? i = some src →
      (cloneAll freshIds start l).get? i =
        some (offsetClone (freshIds (start + i)) src) := by
  intro l
  induction l with
  | nil => intro start i src h; simp at h
  | cons e rest ih =>
    intro start i src h
    cases i with
    | zero =>
      simp at h
      subst h
      simp [cloneAll]
    | succ j =>
      simp [cloneAll]
      have := ih (start + 1) j src (by simpa using h)
      rw [show start + (j + 1) = start + 1 + j by omega] at *
      simpa using this

/-- C10: paste over a non-empty copy buffer and duplicate over a non-empty
selection append, for each source element, one clone that is identical to it
except for the fresh id and a (+20,+20) offset of x and y (and endX/endY for
Lines); the original elements are unchanged (the result list starts with
them) and the committed selection is exactly the new ids. -/
theorem paste_and_duplicate_rule (freshIds : ℕ → String) (els : List Element)
    (selected : List String) (copied : List Element)
    (hcop : copied.length > 0) (hsel : selected.length > 0) :
    ((pasteAction freshIds els selected copied).1 =
        els ++ cloneAll freshIds 0 copied ∧
      (pasteAction freshIds els selected copied).2 =
        (cloneAll freshIds 0 copied).map Element.id ∧
      (∀ i src, copied.get? i = some src → ∃ tgt,
        (cloneAll freshIds 0 copied).get? i = some tgt ∧
        clonedWithOffset (freshIds i) src tgt)) ∧
    ((duplicateAction freshIds els selected).1 =
        els ++ cloneAll freshIds 0 (els.filter fun el => decide (el.id ∈ selected)) ∧
      (duplicateAction freshIds els selected).2 =
        (cloneAll freshIds 0 (els.filter fun el => decide (el.id ∈ selected))).map
          Element.id ∧
      (∀ i src,
        (els.filter fun el => decide (el.id ∈ selected)).get? i = some src →
        ∃ tgt,
          (cloneAll freshIds 0
            (els.filter fun el => decide (el.id ∈ selected))).get? i = some tgt ∧
          clonedWithOffset (freshIds i) src tgt)) := by
  constructor
  · refine ⟨by rw [pasteAction, if_pos hcop], by rw [pasteAction, if_pos hcop], ?_⟩
    intro i src h
    exact ⟨offsetClone (freshIds i) src,
      by simpa using cloneAll_get freshIds copied 0 i src h,
      offsetClone_spec (freshIds i) src⟩
  · refine ⟨by rw [duplicateAction, if_pos hsel],
      by rw [duplicateAction, if_pos hsel], ?_⟩
    intro i src h
    exact ⟨offsetClone (freshIds i) src,
      by simpa using cloneAll_get freshIds _ 0 i src h,
      offsetClone_spec (freshIds i) src⟩

/-- Witness for C10: pasting a one-line buffer appends one offset clone and
the clone is identical to the source except id and the (+20,+20) offset. -/
theorem paste_and_duplicate_rule_witness :
    ([wLine] : List Element).length > 0 ∧
    (["L2"] : List String).length > 0 ∧
    (pasteAction (fun _ => "P1") [wLine] ["L2"] [wLine]).1 =
      [wLine] ++ cloneAll (fun _ => "P1") 0 [wLine] ∧
    (pasteAction (fun _ => "P1") [wLine] ["L2"] [wLine]).2 =
      (cloneAll (fun _ => "P1") 0 [wLine]).map Element.id ∧
    (∃ tgt, (cloneAll (fun _ => "P1") 0 [wLine]).get? 0 = some tgt ∧
      clonedWithOffset "P1" wLine tgt) := by
  have h := paste_and_duplicate_rule (fun _ => "P1") [wLine] ["L2"] [wLine]
    (by norm_num) (by norm_num)
  exact ⟨by norm_num, by norm_num, h.1.1, h.1.2.1, h.1.2.2 0 wLine rfl⟩
